import Mathlib

/-!
Shallow embedding of the Mint-NFT-Server repository (three Express/MongoDB
request-handler files: src/index.js, src/unnamed/part_000, src/unnamed/part_001)
and proofs about the claims of its specification.

JavaScript request bodies are JSON values, so a body field is modelled as a
`JVal` (number, string, boolean, null, or undefined for an absent key after
destructuring). JavaScript numbers relevant to the routes are integers or NaN,
modelled by `JNum`. `Number(...)` coercion is modelled by `JVal.toNumber`,
restricted to the forms the routes can meet: signed decimal integer strings,
whitespace and the empty string (0), booleans, null; every other string gives
NaN. The MongoDB collection is a list of documents in insertion order plus a
counter supplying the storage-assigned `_id`; `findOne` takes the first match
in insertion order, and BSON query equality matches NaN to NaN (MongoDB
queries for NaN do return documents whose field is NaN).
-/

namespace MintNFT

/-- A JavaScript number as the routes can produce it: an integer or NaN. -/
inductive JNum where
  | num (n : Int)
  | nan
deriving DecidableEq, Repr

/-- A JSON / JavaScript value in a request body; `undefined` is the result of
destructuring an absent key. -/
inductive JVal where
  | num (v : JNum)
  | str (s : String)
  | bool (b : Bool)
  | null
  | undefined
deriving DecidableEq, Repr

/-- JavaScript falsiness, as used by the guard
`if (!nftId || !name || !description || !logoUrl || !userWalletAddress)`:
the number 0, NaN, the empty string, false, null and undefined are falsy. -/
def JVal.falsy : JVal → Bool
  | .num (.num n) => n = 0
  | .num .nan => true
  | .str s => s.isEmpty
  | .bool b => !b
  | .null => true
  | .undefined => true

def isSpaceChar (c : Char) : Bool :=
  c = ' ' || c = '\t' || c = '\n' || c = '\r'

def isDigitChar (c : Char) : Bool :=
  decide ('0' ≤ c) && decide (c ≤ '9')

def digitVal (c : Char) : Nat := c.toNat - 48

def trimChars (cs : List Char) : List Char :=
  ((cs.dropWhile isSpaceChar).reverse.dropWhile isSpaceChar).reverse

def parseDigitsAux (acc : Nat) : List Char → Option Nat
  | [] => some acc
  | c :: cs => if isDigitChar c then parseDigitsAux (10 * acc + digitVal c) cs else none

/-- A nonempty all-digit character list parsed as a natural number. -/
def parseDigits : List Char → Option Nat
  | [] => none
  | cs => parseDigitsAux 0 cs

/-- JavaScript `Number(s)` on a string, for the shapes the routes can meet:
whitespace is trimmed, the empty (or all-whitespace) string is 0, an optional
sign followed by decimal digits is that integer, anything else is NaN. -/
def strToNumber (s : String) : JNum :=
  match trimChars s.toList with
  | [] => .num 0
  | '-' :: cs =>
    match parseDigits cs with
    | some n => .num (-(n : Int))
    | none => .nan
  | '+' :: cs =>
    match parseDigits cs with
    | some n => .num (n : Int)
    | none => .nan
  | cs =>
    match parseDigits cs with
    | some n => .num (n : Int)
    | none => .nan

/-- JavaScript `Number(v)` coercion on a JSON value. -/
def JVal.toNumber : JVal → JNum
  | .num v => v
  | .str s => strToNumber s
  | .bool true => .num 1
  | .bool false => .num 0
  | .null => .num 0
  | .undefined => .nan

/-- A document of the `nfts` collection: the five user-supplied fields (with
`nftId` numerically coerced at insertion), the server-assigned `createdAt`,
and the storage-assigned `_id`, modelled by the counter value `oid`. -/
structure NftDoc where
  oid : Nat
  nftId : JNum
  name : JVal
  description : JVal
  logoUrl : JVal
  userWalletAddress : JVal
  createdAt : Nat
deriving DecidableEq, Repr

/-- The `nfts` collection: documents in insertion order and the next
storage-assigned identifier. -/
structure DB where
  docs : List NftDoc
  nextOid : Nat
deriving DecidableEq, Repr

def emptyDB : DB := ⟨[], 0⟩

/-- Model of `findOne({ nftId: q })`: the first document in insertion order whose
`nftId` equals `q` under BSON query equality (which matches NaN to NaN). -/
def findOneNftId (db : DB) (q : JNum) : Option NftDoc :=
  db.docs.find? (fun d => decide (d.nftId = q))

/-- The filter of `find({ userWalletAddress })` where the query value is the
path-parameter string. -/
def matchesWallet (addr : String) (d : NftDoc) : Bool :=
  decide (d.userWalletAddress = JVal.str addr)

/-- The payload part of a JSON response: nothing, an inserted `_id`, one
document, or a list of documents. -/
inductive RData where
  | none
  | oid (i : Nat)
  | doc (d : NftDoc)
  | docs (l : List NftDoc)
deriving DecidableEq, Repr

/-- An HTTP JSON response: status code, the `status` envelope field, the
optional `message` field, and the optional `data` field. -/
structure HttpResp where
  code : Nat
  status : String
  message : Option String
  data : RData
deriving DecidableEq, Repr

/-- The body of `POST /api/nft/store` after destructuring: an absent key
appears as `undefined`. -/
structure StoreBody where
  nftId : JVal
  name : JVal
  description : JVal
  logoUrl : JVal
  userWalletAddress : JVal
deriving DecidableEq, Repr

def missingFieldsResp : HttpResp :=
  ⟨400, "error",
   some "All fields are required: nftId, name, description, logoUrl, userWalletAddress",
   .none⟩

def duplicateResp : HttpResp :=
  ⟨400, "error", some "NFT with this ID already exists", .none⟩

def anyFieldFalsy (b : StoreBody) : Bool :=
  b.nftId.falsy || b.name.falsy || b.description.falsy || b.logoUrl.falsy ||
    b.userWalletAddress.falsy

/-- The document inserted by both store variants: `nftId` numerically coerced,
the other four fields stored as received, `createdAt` set to the current time,
`_id` assigned by the store. -/
def insertedDoc (db : DB) (b : StoreBody) (now : Nat) : NftDoc :=
  { oid := db.nextOid
    nftId := b.nftId.toNumber
    name := b.name
    description := b.description
    logoUrl := b.logoUrl
    userWalletAddress := b.userWalletAddress
    createdAt := now }

/-- Route `POST /api/nft/store` of src/index.js and src/unnamed/part_001: falsiness
guard on the five fields, then a pre-insert existence check on the coerced
`nftId`, then `insertOne` and a 201 carrying the inserted `_id`. -/
def storeNFT (db : DB) (b : StoreBody) (now : Nat) : HttpResp × DB :=
  if anyFieldFalsy b then
    (missingFieldsResp, db)
  else
    match findOneNftId db b.nftId.toNumber with
    | some _ => (duplicateResp, db)
    | none =>
      (⟨201, "success", some "NFT data stored successfully", .oid db.nextOid⟩,
       ⟨db.docs ++ [insertedDoc db b now], db.nextOid + 1⟩)

/-- Route `POST /api/nft/store` of src/unnamed/part_000: the same falsiness guard and
insert, but no existence check and no `data` in the 201 response. -/
def storeNFTNoCheck (db : DB) (b : StoreBody) (now : Nat) : HttpResp × DB :=
  if anyFieldFalsy b then
    (missingFieldsResp, db)
  else
    (⟨201, "success", some "NFT data stored successfully", .none⟩,
     ⟨db.docs ++ [insertedDoc db b now], db.nextOid + 1⟩)

/-- Route `GET /api/nft/:nftId` of src/unnamed/part_001 (strict variant): coerce the
path parameter with `Number`, reject NaN with 400 before any lookup, otherwise
`findOne` and 200 with the document or 404. -/
def getById (db : DB) (param : String) : HttpResp :=
  match strToNumber param with
  | .nan => ⟨400, "error", some "Invalid NFT ID format", .none⟩
  | .num n =>
    match findOneNftId db (.num n) with
    | none => ⟨404, "error", some "NFT not found", .none⟩
    | some nft => ⟨200, "success", none, .doc nft⟩

/-- Route `GET /api/nft/:nftId` of src/unnamed/part_000 (loose variant): `findOne`
on `Number(req.params.nftId)` with no NaN guard, 200 with the document or
404. -/
def getByIdLoose (db : DB) (param : String) : HttpResp :=
  match findOneNftId db (strToNumber param) with
  | none => ⟨404, "error", some "NFT not found", .none⟩
  | some nft => ⟨200, "success", none, .doc nft⟩

/-- Descending insertion by `createdAt`, the building block of the model of
`sort({ createdAt: -1 })`. -/
def insertDesc (d : NftDoc) : List NftDoc → List NftDoc
  | [] => [d]
  | x :: xs => if d.createdAt ≤ x.createdAt then x :: insertDesc d xs else d :: x :: xs

/-- The model of MongoDB `sort({ createdAt: -1 })`: the same documents ordered
by `createdAt` descending. -/
def sortByCreatedDesc : List NftDoc → List NftDoc
  | [] => []
  | d :: ds => insertDesc d (sortByCreatedDesc ds)

/-- Route `GET /api/nft/gallery/:userWalletAddress` of src/unnamed/part_001: falsy
(empty) parameter rejected with 400, then the matching documents sorted by
`createdAt` descending, a 404 when none match, otherwise 200 with the list. -/
def gallerySorted (db : DB) (addr : String) : HttpResp :=
  if addr.isEmpty then
    ⟨400, "error", some "Wallet address is required", .none⟩
  else
    let nfts := sortByCreatedDesc (db.docs.filter (matchesWallet addr))
    if nfts.isEmpty then
      ⟨404, "error", some "No NFTs found for this wallet address", .none⟩
    else
      ⟨200, "success", none, .docs nfts⟩

/-- Route `GET /api/nft/gallery/:userWalletAddress` of src/unnamed/part_000: the
matching documents in natural (insertion) order, 200 even when empty. -/
def galleryLoose (db : DB) (addr : String) : HttpResp :=
  ⟨200, "success", none, .docs (db.docs.filter (matchesWallet addr))⟩

/-- The outcome of `connectToMongo`: the value returned or error thrown, the
number of connection attempts performed, and the number of 5-second sleeps
performed. -/
structure ConnOutcome where
  result : Except String Bool
  attempts : Nat
  sleeps : Nat
deriving Repr

/-- The loop body of `connectToMongo` of src/index.js and src/unnamed/part_001,
entered at loop index `i` with every earlier attempt failed and slept after.
`fails j = none` means attempt `j` succeeds; `fails j = some e` means it
throws `e`. On success it returns true at once; on the failure of the last
allowed attempt it rethrows that error; otherwise it sleeps and retries. -/
def connectLoop (fails : Nat → Option String) (retries i : Nat) : ConnOutcome :=
  if _h : i < retries then
    match fails i with
    | none => ⟨.ok true, i + 1, i⟩
    | some e =>
      if i = retries - 1 then ⟨.error e, i + 1, i⟩
      else connectLoop fails retries (i + 1)
  else ⟨.ok false, i, i⟩
termination_by retries - i

/-- Function `connectToMongo(retries = 5)`: the retry loop started at index 0. -/
def connectToMongo (fails : Nat → Option String) (retries : Nat) : ConnOutcome :=
  connectLoop fails retries 0

/-! Concrete values used to exercise the theorems on particular inputs. -/

/-- The scenario body of the specification, with `nftId` the JSON number 1. -/
def exBody1 : StoreBody :=
  ⟨.num (.num 1), .str "A", .str "d", .str "http://x", .str "0xabc"⟩

/-- A well-formed body whose `nftId` arrives as the string "7". -/
def exBody7s : StoreBody :=
  ⟨.str "7", .str "A", .str "d", .str "http://x", .str "0xabc"⟩

/-- A well-formed body whose `nftId` arrives as the number 7. -/
def exBody7n : StoreBody :=
  ⟨.num (.num 7), .str "A", .str "d", .str "http://x", .str "0xabc"⟩

/-- A body whose `nftId` is the truthy non-numeric string "abc", so that
`Number` coerces it to NaN. -/
def exBodyAbc : StoreBody :=
  ⟨.str "abc", .str "A", .str "d", .str "http://x", .str "0xabc"⟩

/-- A body whose `nftId` is the truthy string "0", which `Number` coerces
to 0. -/
def exBodyZeroStr : StoreBody :=
  ⟨.str "0", .str "A", .str "d", .str "http://x", .str "0xabc"⟩

/-- A body whose `nftId` is the JSON number 0, which is falsy. -/
def exBodyZeroNum : StoreBody :=
  ⟨.num (.num 0), .str "A", .str "d", .str "http://x", .str "0xabc"⟩

/-- A body with an absent `description`. -/
def exBodyMissing : StoreBody :=
  ⟨.num (.num 1), .str "A", .undefined, .str "http://x", .str "0xabc"⟩

/-- Three documents owned by the same wallet with distinct timestamps, plus
one document of another wallet. -/
def exDB3 : DB :=
  ⟨[⟨0, .num 1, .str "A", .str "d", .str "u", .str "0xabc", 10⟩,
    ⟨1, .num 2, .str "B", .str "d", .str "u", .str "0xother", 20⟩,
    ⟨2, .num 3, .str "C", .str "d", .str "u", .str "0xabc", 30⟩,
    ⟨3, .num 4, .str "D", .str "d", .str "u", .str "0xabc", 20⟩], 4⟩

/-- An attempt schedule whose attempts 0 and 1 fail and whose attempt 2
succeeds. -/
def exFails (j : Nat) : Option String :=
  if j < 2 then some ("boom" ++ toString j) else none

/-- An attempt schedule that always fails. -/
def exFailsAll (j : Nat) : Option String :=
  some ("boom" ++ toString j)

/-! Helper lemmas about the store model, shared by the claim theorems. -/

theorem findOneNftId_eq_none (db : DB) (q : JNum) :
    findOneNftId db q = none ↔ ∀ d ∈ db.docs, d.nftId ≠ q := by
  unfold findOneNftId
  rw [List.find?_eq_none]
  constructor
  · intro h d hd
    have := h d hd
    simpa using this
  · intro h d hd
    simpa using h d hd

theorem findOneNftId_mem (db : DB) (q : JNum) (d : NftDoc)
    (h : findOneNftId db q = some d) : d ∈ db.docs ∧ d.nftId = q := by
  refine ⟨List.mem_of_find?_eq_some h, ?_⟩
  have := List.find?_some h
  simpa using this

theorem findOneNftId_exists (db : DB) (q : JNum)
    (h : ∃ d ∈ db.docs, d.nftId = q) : ∃ d, findOneNftId db q = some d := by
  rw [← Option.isSome_iff_exists]
  unfold findOneNftId
  rw [List.find?_isSome]
  obtain ⟨d, hd, hq⟩ := h
  exact ⟨d, hd, by simpa using hq⟩

theorem insertDesc_perm (d : NftDoc) (l : List NftDoc) :
    (insertDesc d l).Perm (d :: l) := by
  induction l with
  | nil => simp [insertDesc]
  | cons x xs ih =>
    simp only [insertDesc]
    by_cases hle : d.createdAt ≤ x.createdAt
    · rw [if_pos hle]
      exact (ih.cons x).trans (List.Perm.swap d x xs)
    · rw [if_neg hle]

theorem insertDesc_pairwise (d : NftDoc) (l : List NftDoc)
    (h : l.Pairwise (fun a b => b.createdAt ≤ a.createdAt)) :
    (insertDesc d l).Pairwise (fun a b => b.createdAt ≤ a.createdAt) := by
  induction l with
  | nil => simp [insertDesc]
  | cons x xs ih =>
    rcases List.pairwise_cons.mp h with ⟨hx, hxs⟩
    simp only [insertDesc]
    by_cases hle : d.createdAt ≤ x.createdAt
    · rw [if_pos hle]
      refine List.pairwise_cons.mpr ⟨?_, ih hxs⟩
      intro y hy
      rcases List.mem_cons.mp ((insertDesc_perm d xs).mem_iff.mp hy) with rfl | hmem
      · exact hle
      · exact hx y hmem
    · rw [if_neg hle]
      have hxd : x.createdAt ≤ d.createdAt := le_of_not_le hle
      refine List.pairwise_cons.mpr ⟨?_, h⟩
      intro y hy
      rcases List.mem_cons.mp hy with rfl | hmem
      · exact hxd
      · exact le_trans (hx y hmem) hxd

theorem sortByCreatedDesc_perm (l : List NftDoc) :
    (sortByCreatedDesc l).Perm l := by
  induction l with
  | nil => simp [sortByCreatedDesc]
  | cons x xs ih =>
    simp only [sortByCreatedDesc]
    exact (insertDesc_perm x (sortByCreatedDesc xs)).trans (ih.cons x)

theorem sortByCreatedDesc_pairwise (l : List NftDoc) :
    (sortByCreatedDesc l).Pairwise (fun a b => b.createdAt ≤ a.createdAt) := by
  induction l with
  | nil => simp [sortByCreatedDesc]
  | cons x xs ih =>
    simp only [sortByCreatedDesc]
    exact insertDesc_pairwise x (sortByCreatedDesc xs) ih

theorem anyFieldFalsy_of_falsy (b : StoreBody)
    (h : b.nftId.falsy = true ∨ b.name.falsy = true ∨ b.description.falsy = true ∨
      b.logoUrl.falsy = true ∨ b.userWalletAddress.falsy = true) :
    anyFieldFalsy b = true := by
  unfold anyFieldFalsy
  rcases h with h | h | h | h | h <;> simp [h]

end MintNFT
namespace MintNFT

theorem connectLoop_ok (fails : Nat → Option String) (retries k : Nat)
    (hk : k < retries) (hs : fails k = none) :
    ∀ n i, i ≤ k → k - i ≤ n → (∀ j, i ≤ j → j < k → fails j ≠ none) →
      connectLoop fails retries i = ⟨.ok true, k + 1, k⟩ := by
  intro n
  induction n with
  | zero =>
    intro i hik hfuel _hmin
    have hi : i = k := by omega
    subst hi
    unfold connectLoop
    rw [dif_pos hk, hs]
  | succ n ih =>
    intro i hik hfuel hmin
    by_cases he : i = k
    · subst he
      unfold connectLoop
      rw [dif_pos hk, hs]
    · have hi : i < k := by omega
      have hne := hmin i le_rfl hi
      obtain ⟨e, he2⟩ := Option.ne_none_iff_exists.mp hne
      unfold connectLoop
      rw [dif_pos (show i < retries by omega), ← he2]
      have hir : ¬(i = retries - 1) := by omega
      dsimp only
      rw [if_neg hir]
      exact ih (i + 1) (by omega) (by omega) (fun j hj1 hj2 => hmin j (by omega) hj2)


theorem connectLoop_fail (fails : Nat → Option String) (retries : Nat)
    (hall : ∀ j, j < retries → fails j ≠ none) :
    ∀ n i, i < retries → retries - i ≤ n →
      ∃ e, fails (retries - 1) = some e ∧
        connectLoop fails retries i = ⟨.error e, retries, retries - 1⟩ := by
  intro n
  induction n with
  | zero => intro i hi hfuel; omega
  | succ n ih =>
    intro i hi hfuel
    obtain ⟨e, he⟩ := Option.ne_none_iff_exists.mp (hall i hi)
    by_cases hlast : i = retries - 1
    · subst hlast
      refine ⟨e, he.symm, ?_⟩
      unfold connectLoop
      rw [dif_pos hi, ← he]
      dsimp only
      rw [if_pos rfl]
      have : retries - 1 + 1 = retries := by omega
      rw [this]
    · have hstep : connectLoop fails retries i = connectLoop fails retries (i + 1) := by
        conv_lhs => unfold connectLoop
        rw [dif_pos hi, ← he]
        dsimp only
        rw [if_neg hlast]
      obtain ⟨e2, he2, hres⟩ := ih (i + 1) (by omega) (by omega)
      exact ⟨e2, he2, hstep.trans hres⟩

theorem connectLoop_attempts_le (fails : Nat → Option String) (retries : Nat) :
    ∀ n i, i ≤ retries → retries - i ≤ n →
      (connectLoop fails retries i).attempts ≤ retries := by
  intro n
  induction n with
  | zero =>
    intro i hi hfuel
    have : i = retries := by omega
    subst this
    unfold connectLoop
    rw [dif_neg (by omega)]
  | succ n ih =>
    intro i hi hfuel
    by_cases hlt : i < retries
    · unfold connectLoop
      rw [dif_pos hlt]
      cases hfi : fails i with
      | none => exact by dsimp only; omega
      | some e =>
        dsimp only
        by_cases hlast : i = retries - 1
        · rw [if_pos hlast]; dsimp only; omega
        · rw [if_neg hlast]
          exact ih (i + 1) (by omega) (by omega)
    · have : i = retries := by omega
      subst this
      unfold connectLoop
      rw [dif_neg (by omega)]


/-- Claim C8: for every retries at least 1, connectToMongo performs at most
retries attempts and terminates; a first success at attempt i returns true
after exactly i attempts with a sleep after each of the i-1 failures before
it and none after success; if all attempts fail, the error of the final
attempt is propagated, with a sleep between consecutive attempts but none
after the last. -/
theorem C8_connect_retry_behaviour (fails : Nat → Option String) (retries : Nat)
    (hr : 1 ≤ retries) :
    (connectToMongo fails retries).attempts ≤ retries
  ∧ (∀ k, k < retries → fails k = none → (∀ j, j < k → fails j ≠ none) →
      connectToMongo fails retries = ⟨.ok true, k + 1, k⟩)
  ∧ ((∀ j, j < retries → fails j ≠ none) →
      ∃ e, fails (retries - 1) = some e ∧
        connectToMongo fails retries = ⟨.error e, retries, retries - 1⟩) := by
  refine ⟨?_, ?_, ?_⟩
  · exact connectLoop_attempts_le fails retries retries 0 (by omega) (by omega)
  · intro k hk hs hmin
    exact connectLoop_ok fails retries k hk hs k 0 (by omega) (by omega)
      (fun j _ hj2 => hmin j hj2)
  · intro hall
    exact connectLoop_fail fails retries hall retries 0 (by omega) (by omega)

theorem C8_connect_retry_behaviour_witness :
    ((connectToMongo exFails 3).attempts ≤ 3
      ∧ connectToMongo exFails 3 = ⟨.ok true, 3, 2⟩)
  ∧ ∃ e, exFailsAll 2 = some e ∧ connectToMongo exFailsAll 3 = ⟨.error e, 3, 2⟩ := by
  obtain ⟨h1, h2, -⟩ := C8_connect_retry_behaviour exFails 3 (by omega)
  obtain ⟨-, -, h3⟩ := C8_connect_retry_behaviour exFailsAll 3 (by omega)
  exact ⟨⟨h1, h2 2 (by omega) (by decide) (by decide)⟩, h3 (by decide)⟩


/-- Claim C1: a store request with all five fields present and non-empty and a
fresh nftId, followed by getById on the coerced nftId, yields the stored
record: the five user-supplied fields equal the input (nftId numerically
coerced) plus the server-assigned createdAt and storage identifier. -/
theorem C1_create_then_get (db : DB) (b : StoreBody) (now : Nat) (param : String) (n : Int)
    (hvalid : anyFieldFalsy b = false)
    (hfresh : findOneNftId db b.nftId.toNumber = none)
    (hnum : b.nftId.toNumber = .num n)
    (hparam : strToNumber param = .num n) :
    (storeNFT db b now).1 =
      ⟨201, "success", some "NFT data stored successfully", .oid db.nextOid⟩
  ∧ getById (storeNFT db b now).2 param =
      ⟨200, "success", none, .doc (insertedDoc db b now)⟩
  ∧ (insertedDoc db b now).nftId = b.nftId.toNumber
  ∧ (insertedDoc db b now).name = b.name
  ∧ (insertedDoc db b now).description = b.description
  ∧ (insertedDoc db b now).logoUrl = b.logoUrl
  ∧ (insertedDoc db b now).userWalletAddress = b.userWalletAddress
  ∧ (insertedDoc db b now).createdAt = now
  ∧ (insertedDoc db b now).oid = db.nextOid := by
  have hstore : storeNFT db b now =
      (⟨201, "success", some "NFT data stored successfully", .oid db.nextOid⟩,
       ⟨db.docs ++ [insertedDoc db b now], db.nextOid + 1⟩) := by
    unfold storeNFT
    rw [if_neg (by simp [hvalid]), hfresh]
  have hget : findOneNftId ⟨db.docs ++ [insertedDoc db b now], db.nextOid + 1⟩ (.num n) =
      some (insertedDoc db b now) := by
    unfold findOneNftId
    dsimp only
    rw [List.find?_append]
    have h1 : db.docs.find? (fun d => decide (d.nftId = JNum.num n)) = none := by
      have h2 := hfresh
      unfold findOneNftId at h2
      rw [hnum] at h2
      exact h2
    rw [h1]
    simp [insertedDoc, hnum]
  refine ⟨by rw [hstore], ?_, by simp [insertedDoc], by simp [insertedDoc],
    by simp [insertedDoc], by simp [insertedDoc], by simp [insertedDoc],
    by simp [insertedDoc], by simp [insertedDoc]⟩
  rw [hstore]
  unfold getById
  rw [hparam]
  dsimp only
  rw [hget]

theorem C1_create_then_get_witness :
    (storeNFT emptyDB exBody1 10).1 =
      ⟨201, "success", some "NFT data stored successfully", .oid 0⟩
  ∧ getById (storeNFT emptyDB exBody1 10).2 "1" =
      ⟨200, "success", none, .doc (insertedDoc emptyDB exBody1 10)⟩
  ∧ (insertedDoc emptyDB exBody1 10).nftId = exBody1.nftId.toNumber
  ∧ (insertedDoc emptyDB exBody1 10).name = exBody1.name
  ∧ (insertedDoc emptyDB exBody1 10).description = exBody1.description
  ∧ (insertedDoc emptyDB exBody1 10).logoUrl = exBody1.logoUrl
  ∧ (insertedDoc emptyDB exBody1 10).userWalletAddress = exBody1.userWalletAddress
  ∧ (insertedDoc emptyDB exBody1 10).createdAt = 10
  ∧ (insertedDoc emptyDB exBody1 10).oid = 0 :=
  C1_create_then_get emptyDB exBody1 10 "1" 1 (by decide) (by decide) (by decide) (by decide)


/-- Claim C4: a store request missing any of the five required fields gets a
400 error envelope, both variants leave the store unchanged, and a subsequent
getById observes the unchanged store. -/
theorem C4_missing_field (db : DB) (b : StoreBody) (now : Nat) (param : String)
    (hmiss : b.nftId = JVal.undefined ∨ b.name = JVal.undefined ∨
      b.description = JVal.undefined ∨ b.logoUrl = JVal.undefined ∨
      b.userWalletAddress = JVal.undefined) :
    storeNFT db b now = (missingFieldsResp, db)
  ∧ storeNFTNoCheck db b now = (missingFieldsResp, db)
  ∧ missingFieldsResp.code = 400 ∧ missingFieldsResp.status = "error"
  ∧ getById (storeNFT db b now).2 param = getById db param
  ∧ getByIdLoose (storeNFTNoCheck db b now).2 param = getByIdLoose db param := by
  have hf : anyFieldFalsy b = true := by
    apply anyFieldFalsy_of_falsy
    rcases hmiss with h | h | h | h | h
    · exact Or.inl (by rw [h]; rfl)
    · exact Or.inr (Or.inl (by rw [h]; rfl))
    · exact Or.inr (Or.inr (Or.inl (by rw [h]; rfl)))
    · exact Or.inr (Or.inr (Or.inr (Or.inl (by rw [h]; rfl))))
    · exact Or.inr (Or.inr (Or.inr (Or.inr (by rw [h]; rfl))))
  have h1 : storeNFT db b now = (missingFieldsResp, db) := by
    unfold storeNFT
    rw [if_pos (by simp [hf])]
  have h2 : storeNFTNoCheck db b now = (missingFieldsResp, db) := by
    unfold storeNFTNoCheck
    rw [if_pos (by simp [hf])]
  exact ⟨h1, h2, rfl, rfl, by rw [h1], by rw [h2]⟩

theorem C4_missing_field_witness :
    storeNFT exDB3 exBodyMissing 50 = (missingFieldsResp, exDB3)
  ∧ storeNFTNoCheck exDB3 exBodyMissing 50 = (missingFieldsResp, exDB3)
  ∧ missingFieldsResp.code = 400 ∧ missingFieldsResp.status = "error"
  ∧ getById (storeNFT exDB3 exBodyMissing 50).2 "1" = getById exDB3 "1"
  ∧ getByIdLoose (storeNFTNoCheck exDB3 exBodyMissing 50).2 "1" = getByIdLoose exDB3 "1" :=
  C4_missing_field exDB3 exBodyMissing 50 "1" (by decide)

/-- Claim C2: a store request whose coerced nftId equals that of an existing
record is rejected by the checking variant with 400 and the message that the
NFT with this ID already exists, leaving the store unchanged; the variant
without the existence check inserts the second document and answers 201. -/
theorem C2_duplicate_conflict (db : DB) (b : StoreBody) (now : Nat)
    (hvalid : anyFieldFalsy b = false)
    (hdup : ∃ d ∈ db.docs, d.nftId = b.nftId.toNumber) :
    storeNFT db b now = (duplicateResp, db)
  ∧ duplicateResp.code = 400
  ∧ duplicateResp.message = some "NFT with this ID already exists"
  ∧ storeNFTNoCheck db b now =
      (⟨201, "success", some "NFT data stored successfully", .none⟩,
       ⟨db.docs ++ [insertedDoc db b now], db.nextOid + 1⟩) := by
  obtain ⟨d0, hd0⟩ := findOneNftId_exists db _ hdup
  refine ⟨?_, rfl, rfl, ?_⟩
  · unfold storeNFT
    rw [if_neg (by simp [hvalid]), hd0]
  · unfold storeNFTNoCheck
    rw [if_neg (by simp [hvalid])]

theorem C2_duplicate_conflict_witness :
    storeNFT exDB3 exBody1 50 = (duplicateResp, exDB3)
  ∧ duplicateResp.code = 400
  ∧ duplicateResp.message = some "NFT with this ID already exists"
  ∧ storeNFTNoCheck exDB3 exBody1 50 =
      (⟨201, "success", some "NFT data stored successfully", .none⟩,
       ⟨exDB3.docs ++ [insertedDoc exDB3 exBody1 50], exDB3.nextOid + 1⟩) :=
  C2_duplicate_conflict exDB3 exBody1 50 (by decide) (by decide)

/-- Claim C9 counterexample: the claim says a record with nftId 0 can never be
created, but the string "0" is truthy, passes the falsiness guard, and is
coerced to the number 0 at insertion, so the checking variant answers 201 and
persists a document whose nftId is 0. -/
theorem C9_counterexample :
    (JVal.str "0").falsy = false
  ∧ (storeNFT emptyDB exBodyZeroStr 3).1.code = 201
  ∧ ∃ d ∈ (storeNFT emptyDB exBodyZeroStr 3).2.docs, d.nftId = JNum.num 0 := by
  decide

/-- Claim C9 amended: a store request in which any of the five fields is a
falsy value (0, empty string, false, null, undefined, NaN) is rejected with
400 and nothing persisted; in particular a request whose nftId is the JSON
number 0 is always rejected, though a record with stored nftId 0 can still
arise from a truthy value that coerces to 0, such as the string "0". -/
theorem C9_falsy_fields_rejected (db : DB) (b : StoreBody) (now : Nat) :
    ((b.nftId.falsy = true ∨ b.name.falsy = true ∨ b.description.falsy = true ∨
        b.logoUrl.falsy = true ∨ b.userWalletAddress.falsy = true) →
      storeNFT db b now = (missingFieldsResp, db)
      ∧ storeNFTNoCheck db b now = (missingFieldsResp, db))
  ∧ (b.nftId = JVal.num (JNum.num 0) →
      storeNFT db b now = (missingFieldsResp, db)
      ∧ storeNFTNoCheck db b now = (missingFieldsResp, db)) := by
  constructor
  · intro h
    have hf := anyFieldFalsy_of_falsy b h
    constructor
    · unfold storeNFT
      rw [if_pos (by simp [hf])]
    · unfold storeNFTNoCheck
      rw [if_pos (by simp [hf])]
  · intro h
    have hf := anyFieldFalsy_of_falsy b (Or.inl (by rw [h]; rfl))
    constructor
    · unfold storeNFT
      rw [if_pos (by simp [hf])]
    · unfold storeNFTNoCheck
      rw [if_pos (by simp [hf])]

theorem C9_falsy_fields_rejected_witness :
    (storeNFT exDB3 exBodyZeroNum 50 = (missingFieldsResp, exDB3)
      ∧ storeNFTNoCheck exDB3 exBodyZeroNum 50 = (missingFieldsResp, exDB3))
  ∧ (storeNFT exDB3 exBodyZeroNum 50 = (missingFieldsResp, exDB3)
      ∧ storeNFTNoCheck exDB3 exBodyZeroNum 50 = (missingFieldsResp, exDB3)) := by
  obtain ⟨h1, h2⟩ := C9_falsy_fields_rejected exDB3 exBodyZeroNum 50
  exact ⟨h1 (Or.inl (by decide)), h2 (by decide)⟩


/-- Claim C10: every document a store operation adds has nftId equal to the
numeric coercion of the raw input; the duplicate check, the stored value and
getById all apply the same coercion, so nftId inputs that coerce alike (for
example the string "7" and the number 7) denote the same identifier
throughout. -/
theorem C10_numeric_coercion (db : DB) (b : StoreBody) (now : Nat) (v w : JVal)
    (p1 p2 : String) :
    (∀ d ∈ (storeNFT db b now).2.docs, d ∈ db.docs ∨ d.nftId = b.nftId.toNumber)
  ∧ (∀ d ∈ (storeNFTNoCheck db b now).2.docs, d ∈ db.docs ∨ d.nftId = b.nftId.toNumber)
  ∧ (v.toNumber = w.toNumber → v.falsy = w.falsy →
      storeNFT db { b with nftId := v } now = storeNFT db { b with nftId := w } now
      ∧ storeNFTNoCheck db { b with nftId := v } now
          = storeNFTNoCheck db { b with nftId := w } now)
  ∧ (strToNumber p1 = strToNumber p2 →
      getById db p1 = getById db p2 ∧ getByIdLoose db p1 = getByIdLoose db p2)
  ∧ (JVal.str "7").toNumber = JNum.num 7
  ∧ (JVal.num (JNum.num 7)).toNumber = JNum.num 7 := by
  refine ⟨?_, ?_, ?_, ?_, by decide, rfl⟩
  · intro d hd
    unfold storeNFT at hd
    by_cases hf : anyFieldFalsy b
    · rw [if_pos hf] at hd
      exact Or.inl hd
    · rw [if_neg hf] at hd
      cases hfind : findOneNftId db b.nftId.toNumber with
      | some x =>
        rw [hfind] at hd
        exact Or.inl hd
      | none =>
        rw [hfind] at hd
        dsimp only at hd
        rcases List.mem_append.mp hd with h | h
        · exact Or.inl h
        · have := List.mem_singleton.mp h
          subst this
          exact Or.inr rfl
  · intro d hd
    unfold storeNFTNoCheck at hd
    by_cases hf : anyFieldFalsy b
    · rw [if_pos hf] at hd
      exact Or.inl hd
    · rw [if_neg hf] at hd
      dsimp only at hd
      rcases List.mem_append.mp hd with h | h
      · exact Or.inl h
      · have := List.mem_singleton.mp h
        subst this
        exact Or.inr rfl
  · intro hv hfalsy
    constructor
    · unfold storeNFT insertedDoc anyFieldFalsy
      dsimp only
      rw [hfalsy, hv]
    · unfold storeNFTNoCheck insertedDoc anyFieldFalsy
      dsimp only
      rw [hfalsy, hv]
  · intro hp
    constructor
    · unfold getById
      rw [hp]
    · unfold getByIdLoose
      rw [hp]

theorem C10_numeric_coercion_witness :
    (∀ d ∈ (storeNFT exDB3 exBody1 50).2.docs,
      d ∈ exDB3.docs ∨ d.nftId = exBody1.nftId.toNumber)
  ∧ storeNFT exDB3 { exBody1 with nftId := JVal.str "7" } 50
      = storeNFT exDB3 { exBody1 with nftId := JVal.num (JNum.num 7) } 50
  ∧ getById exDB3 "7" = getById exDB3 " +7"
  ∧ (JVal.str "7").toNumber = JNum.num 7 := by
  obtain ⟨h1, _h2, h3, h4, h5, _h6⟩ :=
    C10_numeric_coercion exDB3 exBody1 50 (JVal.str "7") (JVal.num (JNum.num 7)) "7" " +7"
  exact ⟨h1, (h3 (by decide) (by decide)).1, (h4 (by decide)).1, h5⟩

/-- Claim C5: for a numeric identifier, both getById variants answer 200 with
a stored record bearing that nftId when one exists, and 404 with status error
when no stored record has it. -/
theorem C5_get_by_id (db : DB) (param : String) (n : Int)
    (hparam : strToNumber param = JNum.num n) :
    ((∃ d ∈ db.docs, d.nftId = JNum.num n) →
      ∃ d, d ∈ db.docs ∧ d.nftId = JNum.num n
        ∧ getById db param = ⟨200, "success", none, .doc d⟩
        ∧ getByIdLoose db param = ⟨200, "success", none, .doc d⟩)
  ∧ ((∀ d ∈ db.docs, d.nftId ≠ JNum.num n) →
      getById db param = ⟨404, "error", some "NFT not found", .none⟩
      ∧ getByIdLoose db param = ⟨404, "error", some "NFT not found", .none⟩) := by
  constructor
  · intro hex
    obtain ⟨d0, hd0⟩ := findOneNftId_exists db _ hex
    obtain ⟨hmem, hid⟩ := findOneNftId_mem db _ _ hd0
    refine ⟨d0, hmem, hid, ?_, ?_⟩
    · unfold getById
      rw [hparam]
      dsimp only
      rw [hd0]
    · unfold getByIdLoose
      rw [hparam, hd0]
  · intro hnone
    have hfind : findOneNftId db (JNum.num n) = none :=
      (findOneNftId_eq_none db _).mpr hnone
    constructor
    · unfold getById
      rw [hparam]
      dsimp only
      rw [hfind]
    · unfold getByIdLoose
      rw [hparam, hfind]

theorem C5_get_by_id_witness :
    (∃ d, d ∈ exDB3.docs ∧ d.nftId = JNum.num 3
      ∧ getById exDB3 "3" = ⟨200, "success", none, .doc d⟩
      ∧ getByIdLoose exDB3 "3" = ⟨200, "success", none, .doc d⟩)
  ∧ getById exDB3 "999" = ⟨404, "error", some "NFT not found", .none⟩
  ∧ getByIdLoose exDB3 "999" = ⟨404, "error", some "NFT not found", .none⟩ := by
  obtain ⟨h1, -⟩ := C5_get_by_id exDB3 "3" 3 (by decide)
  obtain ⟨-, h2⟩ := C5_get_by_id exDB3 "999" 999 (by decide)
  exact ⟨h1 (by decide), h2 (by decide)⟩

/-- Claim C6: for a wallet address matching no stored record, the sorting
variant (which checks the result length) answers 404 with status error, and
the non-sorting variant answers 200 with an empty data array. -/
theorem C6_empty_gallery (db : DB) (addr : String)
    (haddr : addr ≠ "")
    (hnone : ∀ d ∈ db.docs, d.userWalletAddress ≠ JVal.str addr) :
    gallerySorted db addr =
      ⟨404, "error", some "No NFTs found for this wallet address", .none⟩
  ∧ galleryLoose db addr = ⟨200, "success", none, .docs []⟩ := by
  have hfilter : db.docs.filter (matchesWallet addr) = [] := by
    rw [List.filter_eq_nil_iff]
    intro d hd
    simp [matchesWallet, hnone d hd]
  constructor
  · unfold gallerySorted
    rw [if_neg (by simp [String.isEmpty_iff, haddr])]
    dsimp only
    rw [hfilter]
    rfl
  · unfold galleryLoose
    rw [hfilter]

theorem C6_empty_gallery_witness :
    gallerySorted exDB3 "0xnobody" =
      ⟨404, "error", some "No NFTs found for this wallet address", .none⟩
  ∧ galleryLoose exDB3 "0xnobody" = ⟨200, "success", none, .docs []⟩ :=
  C6_empty_gallery exDB3 "0xnobody" (by decide) (by decide)

/-- Claim C7 counterexample: for the identifier string "abc" (coercion NaN)
the strict variant answers 400 as claimed, but the loose variant does not
always answer 404: after storing a body whose truthy nftId "abc" was coerced
to NaN, the lookup with key NaN matches that document (BSON equality matches
NaN to NaN) and answers 200. -/
theorem C7_counterexample :
    strToNumber "abc" = JNum.nan
  ∧ (storeNFTNoCheck emptyDB exBodyAbc 5).1.code = 201
  ∧ getById (storeNFTNoCheck emptyDB exBodyAbc 5).2 "abc"
      = ⟨400, "error", some "Invalid NFT ID format", .none⟩
  ∧ (getByIdLoose (storeNFTNoCheck emptyDB exBodyAbc 5).2 "abc").code = 200
  ∧ getByIdLoose (storeNFTNoCheck emptyDB exBodyAbc 5).2 "abc"
      ≠ ⟨404, "error", some "NFT not found", .none⟩ := by
  decide

/-- Claim C7 amended: for an identifier string whose coercion is NaN, the
strict variant answers 400 Invalid NFT ID format without consulting the
store; the loose variant performs the lookup with NaN as the key and answers
404 provided no stored record has a NaN nftId (such a record can arise from a
truthy non-numeric nftId and is then matched, since BSON equality matches NaN
to NaN). -/
theorem C7_invalid_id (db : DB) (param : String)
    (hnan : strToNumber param = JNum.nan) :
    getById db param = ⟨400, "error", some "Invalid NFT ID format", .none⟩
  ∧ ((∀ d ∈ db.docs, d.nftId ≠ JNum.nan) →
      getByIdLoose db param = ⟨404, "error", some "NFT not found", .none⟩) := by
  constructor
  · unfold getById
    rw [hnan]
  · intro h
    have hfind : findOneNftId db JNum.nan = none := (findOneNftId_eq_none db _).mpr h
    unfold getByIdLoose
    rw [hnan, hfind]

theorem C7_invalid_id_witness :
    getById exDB3 "abc" = ⟨400, "error", some "Invalid NFT ID format", .none⟩
  ∧ getByIdLoose exDB3 "abc" = ⟨404, "error", some "NFT not found", .none⟩ := by
  obtain ⟨h1, h2⟩ := C7_invalid_id exDB3 "abc" (by decide)
  exact ⟨h1, h2 (by decide)⟩

/-- Claim C3: the non-sorting gallery variant returns exactly the stored
records whose userWalletAddress equals the address, in insertion order; the
sorting variant returns the same set ordered by createdAt descending. -/
theorem C3_list_by_wallet (db : DB) (addr : String) :
    galleryLoose db addr =
      ⟨200, "success", none, .docs (db.docs.filter (matchesWallet addr))⟩
  ∧ (∀ d : NftDoc, d ∈ db.docs.filter (matchesWallet addr) ↔
      d ∈ db.docs ∧ d.userWalletAddress = JVal.str addr)
  ∧ (addr ≠ "" → db.docs.filter (matchesWallet addr) ≠ [] →
      gallerySorted db addr =
        ⟨200, "success", none,
          .docs (sortByCreatedDesc (db.docs.filter (matchesWallet addr)))⟩)
  ∧ (sortByCreatedDesc (db.docs.filter (matchesWallet addr))).Perm
      (db.docs.filter (matchesWallet addr))
  ∧ (sortByCreatedDesc (db.docs.filter (matchesWallet addr))).Pairwise
      (fun a b => b.createdAt ≤ a.createdAt) := by
  refine ⟨rfl, ?_, ?_, sortByCreatedDesc_perm _, sortByCreatedDesc_pairwise _⟩
  · intro d
    rw [List.mem_filter]
    simp [matchesWallet]
  · intro haddr hne
    have hsne : sortByCreatedDesc (db.docs.filter (matchesWallet addr)) ≠ [] := by
      intro h0
      apply hne
      have hlen := (sortByCreatedDesc_perm (db.docs.filter (matchesWallet addr))).length_eq
      rw [h0] at hlen
      exact List.length_eq_zero.mp hlen.symm
    unfold gallerySorted
    rw [if_neg (by simp [String.isEmpty_iff, haddr])]
    dsimp only
    rw [if_neg (by simpa [List.isEmpty_iff] using hsne)]

theorem C3_list_by_wallet_witness :
    galleryLoose exDB3 "0xabc" =
      ⟨200, "success", none, .docs (exDB3.docs.filter (matchesWallet "0xabc"))⟩
  ∧ gallerySorted exDB3 "0xabc" =
      ⟨200, "success", none,
        .docs (sortByCreatedDesc (exDB3.docs.filter (matchesWallet "0xabc")))⟩
  ∧ (sortByCreatedDesc (exDB3.docs.filter (matchesWallet "0xabc"))).Pairwise
      (fun a b => b.createdAt ≤ a.createdAt) := by
  obtain ⟨h1, _h2, h3, _h4, h5⟩ := C3_list_by_wallet exDB3 "0xabc"
  exact ⟨h1, h3 (by decide) (by decide), h5⟩

end MintNFT
